import Mathlib

/-!
Verification of the bullpen recommendation pipeline against its design
specification.  The Python modules `bullpen/scoring.py`, `bullpen/models.py`,
`bullpen/data.py`, `bullpen/agents.py` and `bullpen/llm.py` are shallowly
embedded below: Python floats become exact rationals, Python ints become
integers, fallible code returns `Except`, and the stateful load stage is
modelled by explicit threading of the memo cache and environment.
-/

namespace Bullpen

/-- Python `str.isspace` characters removed by `str.strip()`. -/
def pyIsSpace (c : Char) : Bool :=
  c == ' ' || c == '\t' || c == '\n' || c == '\r' || c == '\x0b' || c == '\x0c'

/-- Python `str.strip()`: drop leading and trailing whitespace. -/
def strTrim (s : String) : String :=
  ⟨((s.data.dropWhile pyIsSpace).reverse.dropWhile pyIsSpace).reverse⟩

/-- Python `str.lower()` (ASCII case folding, which covers the repository's
data; the pipeline never relies on non-ASCII case rules). -/
def strLower (s : String) : String := ⟨s.data.map Char.toLower⟩

/-- Python `str.upper()` (ASCII case folding). -/
def strUpper (s : String) : String := ⟨s.data.map Char.toUpper⟩

/-- Whether the second character list occurs at the head of the first. -/
def charsStartWith : List Char → List Char → Bool
  | [], _ => true
  | _ :: _, [] => false
  | a :: as, b :: bs => (a == b) && charsStartWith as bs

/-- Whether `needle` occurs contiguously anywhere inside `hay`. -/
def charsContain (hay needle : List Char) : Bool :=
  match hay with
  | [] => needle.isEmpty
  | _ :: t => charsStartWith needle hay || charsContain t needle

/-- Python's substring test `needle in hay`. -/
def strContains (hay needle : String) : Bool := charsContain hay.data needle.data

/-- Batter handedness, `Literal["L", "R"]` in `bullpen/scoring.py`. -/
inductive BatterSide
  | L
  | R
deriving DecidableEq, Repr

/-- Leverage tier, `Literal["low", "medium", "high"]` in `bullpen/scoring.py`. -/
inductive LeverageLevel
  | low
  | medium
  | high
deriving DecidableEq, Repr

/-- The `Reliever` frozen dataclass from `bullpen/models.py`.  Python floats
are embedded as rationals and Python ints as integers. -/
structure Reliever where
  name : String
  throws : String
  era : ℚ
  whip : ℚ
  k_per_9 : ℚ
  bb_per_9 : ℚ
  vs_left_woba : ℚ
  vs_right_woba : ℚ
  days_rest : ℤ
  hits : ℤ
  extra_base_hits : ℤ
  home_runs : ℤ
  total_bases : ℤ
  runs_batted_in : ℤ
  walks : ℤ
  balls : ℤ
  strikes : ℤ
deriving DecidableEq, Repr

/-- Rounding to 4 decimal places, modelling Python's `round(x, 4)` as used in
`score_reliever`.  Both the code embedding and the spec-side formula use this
same rounding, so the claims below do not depend on the tie-breaking rule. -/
def round4 (x : ℚ) : ℚ := (round (x * 10000) : ℚ) / 10000

/-- The helper `_platoon_advantage` from `bullpen/scoring.py`: select the wOBA
split for the batter side and normalize to `[0,1]` (lower wOBA is better). -/
def _platoon_advantage (reliever : Reliever) (batter : BatterSide) : ℚ :=
  let woba :=
    match batter with
    | .L => reliever.vs_left_woba
    | .R => reliever.vs_right_woba
  max 0 (min 1 ((0.450 - woba) / 0.450))

/-- The weights dict of `score_reliever`, keys era/whip/kbb/platoon/rest. -/
structure Weights where
  era : ℚ
  whip : ℚ
  kbb : ℚ
  platoon : ℚ
  rest : ℚ
deriving DecidableEq, Repr

/-- Base weights of `score_reliever` (tuned for transparency; sum to 1.0). -/
def baseWeights : Weights := ⟨0.30, 0.25, 0.20, 0.20, 0.05⟩

/-- The in-place weight mutation of `score_reliever` under leverage: at high
leverage platoon and whip gain 0.05 and kbb loses 0.05; at low leverage
platoon loses 0.05 and kbb gains 0.05; medium leaves the dict unchanged. -/
def adjustWeights (leverage : LeverageLevel) (w : Weights) : Weights :=
  match leverage with
  | .high => { w with platoon := w.platoon + 0.05, whip := w.whip + 0.05, kbb := w.kbb - 0.05 }
  | .low => { w with platoon := w.platoon - 0.05, kbb := w.kbb + 0.05 }
  | .medium => w

/-- The scorer `score_reliever` from `bullpen/scoring.py`; the terms and the
final rounded weighted sum mirror the source line by line. -/
def score_reliever (reliever : Reliever) (batter : BatterSide)
    (leverage : LeverageLevel) : ℚ :=
  let weights := adjustWeights leverage baseWeights
  let era_term := max 0 (min 1 (3.5 / max 0.01 reliever.era))
  let whip_term := max 0 (min 1 (1.3 / max 0.01 reliever.whip))
  let kbb_term := max 0 (min 1 ((reliever.k_per_9 - reliever.bb_per_9 + 5) / 15))
  let platoon_term := _platoon_advantage reliever batter
  let rest_term : ℚ := if 1 ≤ reliever.days_rest then 0 else -0.5
  round4
    (weights.era * era_term + weights.whip * whip_term + weights.kbb * kbb_term
      + weights.platoon * platoon_term + weights.rest * rest_term)

/-- Clamp to the unit interval, the `clamp01` of the specification. -/
def clamp01 (x : ℚ) : ℚ := max 0 (min 1 x)

/-- Weights per leverage tier exactly as the specification words them: base
weights era 0.30, whip 0.25, kbb 0.20, platoon 0.20, rest 0.05, adjusted
additively (not re-normalized) at high and low leverage. -/
def spec_weights (leverage : LeverageLevel) : Weights :=
  match leverage with
  | .high => ⟨0.30, 0.25 + 0.05, 0.20 - 0.05, 0.20 + 0.05, 0.05⟩
  | .low => ⟨0.30, 0.25, 0.20 + 0.05, 0.20 - 0.05, 0.05⟩
  | .medium => ⟨0.30, 0.25, 0.20, 0.20, 0.05⟩

/-- The scoring formula written from the specification's words (section 4.1),
to be compared with the source embedding `score_reliever`. -/
def score_spec (reliever : Reliever) (batter : BatterSide)
    (leverage : LeverageLevel) : ℚ :=
  let w := spec_weights leverage
  let era_term := clamp01 (3.5 / max reliever.era 0.01)
  let whip_term := clamp01 (1.3 / max reliever.whip 0.01)
  let kbb_term := clamp01 ((reliever.k_per_9 - reliever.bb_per_9 + 5) / 15)
  let woba :=
    match batter with
    | .L => reliever.vs_left_woba
    | .R => reliever.vs_right_woba
  let platoon_term := clamp01 ((0.450 - woba) / 0.450)
  let rest_term : ℚ := if 1 ≤ reliever.days_rest then 0 else -0.5
  round4
    (w.era * era_term + w.whip * whip_term + w.kbb * kbb_term
      + w.platoon * platoon_term + w.rest * rest_term)

/-- Descending comparison on scored pairs: the sort key of `rank_relievers`
(`key=lambda pair: pair[1], reverse=True`). -/
def byScoreDesc (p q : Reliever × ℚ) : Prop := q.2 ≤ p.2

instance : DecidableRel byScoreDesc := fun p q =>
  inferInstanceAs (Decidable (q.2 ≤ p.2))

instance : IsTotal (Reliever × ℚ) byScoreDesc :=
  ⟨fun p q => (le_total q.2 p.2).imp id id⟩

instance : IsTrans (Reliever × ℚ) byScoreDesc :=
  ⟨fun _ _ _ hab hbc => le_trans hbc hab⟩

/-- The ranker `rank_relievers` from `bullpen/scoring.py`.  Python's
`list.sort` is a stable sort; with `reverse=True` it orders descending while
equal keys keep their original relative order, which is exactly
`List.insertionSort byScoreDesc` (Mathlib's insertion sort is stable).  The
Python exclusion set is modelled by the list of normalized names (only
membership is used, so set vs list is immaterial). -/
def rank_relievers (relievers : List Reliever) (batter : BatterSide)
    (leverage : LeverageLevel) (exclude : List String) :
    List Reliever × List (Reliever × ℚ) :=
  let excluded := exclude.map (fun name => strLower (strTrim name))
  let candidates := relievers.filter (fun r => !(excluded.contains (strLower r.name)))
  let scored := candidates.map (fun r => (r, score_reliever r batter leverage))
  let top_pairs := (scored.insertionSort byScoreDesc).take 3
  (top_pairs.map Prod.fst, top_pairs)

/-- Exclusion test actually applied by `rank_relievers`: the candidate's
lowercased (but untrimmed) name is compared against each exclusion entry
trimmed and lowercased. -/
def matchesExclusion (exclude : List String) (r : Reliever) : Bool :=
  (exclude.map (fun name => strLower (strTrim name))).contains (strLower r.name)

/-- One row of the relievers CSV, as consumed by `Reliever.from_row` in
`bullpen/models.py`.  Numeric columns carry the values Python's `float(...)`
and `int(...)` parse out of the cell text (any sign is possible); the counting
columns are optional, `row.get(key, 0)` defaulting them to 0. -/
structure Row where
  name : String
  throws : String
  era : ℚ
  whip : ℚ
  k9 : ℚ
  bb9 : ℚ
  vsL_woba : ℚ
  vsR_woba : ℚ
  days_rest : ℤ
  hits : Option ℤ
  extra_base_hits : Option ℤ
  home_runs : Option ℤ
  total_bases : Option ℤ
  runs_batted_in : Option ℤ
  walks : Option ℤ
  balls : Option ℤ
  strikes : Option ℤ
deriving DecidableEq, Repr

/-- The classmethod `Reliever.from_row` of `bullpen/models.py`: handedness is
stripped and uppercased, the numeric fields are taken as parsed, and missing
counting columns default to 0. -/
def Reliever.from_row (row : Row) : Reliever where
  name := row.name
  throws := strUpper (strTrim row.throws)
  era := row.era
  whip := row.whip
  k_per_9 := row.k9
  bb_per_9 := row.bb9
  vs_left_woba := row.vsL_woba
  vs_right_woba := row.vsR_woba
  days_rest := row.days_rest
  hits := row.hits.getD 0
  extra_base_hits := row.extra_base_hits.getD 0
  home_runs := row.home_runs.getD 0
  total_bases := row.total_bases.getD 0
  runs_batted_in := row.runs_batted_in.getD 0
  walks := row.walks.getD 0
  balls := row.balls.getD 0
  strikes := row.strikes.getD 0

/-- The CandidateRecord invariant stated by the specification (section 3):
handedness exactly L or R, non-negative rate statistics, non-negative
days-rest. -/
def recordInvariant (r : Reliever) : Prop :=
  (r.throws = "L" ∨ r.throws = "R") ∧ 0 ≤ r.era ∧ 0 ≤ r.whip
    ∧ 0 ≤ r.k_per_9 ∧ 0 ≤ r.bb_per_9 ∧ 0 ≤ r.vs_left_woba
    ∧ 0 ≤ r.vs_right_woba ∧ 0 ≤ r.days_rest

instance (r : Reliever) : Decidable (recordInvariant r) := by
  unfold recordInvariant
  infer_instance

/-- The filesystem and upstream world the data layer of `bullpen/data.py`
interacts with.  `primaryRows` is the CSV at `settings.data_path` (`none` when
the file does not exist), `sampleRows` is the bundled
`sample_data/relievers_2024.csv` fallback, `primaryIsSample` records whether
`settings.data_path` already points at the sample file (in which case the
candidate list of `load_relievers` has a single entry), and `fetchOutcome` is
the behaviour of the Statcast upstream used by the refresh collaborator:
either the frame of rows it would produce, or the `StatcastError` message it
raises with. -/
structure DataEnv where
  primaryRows : Option (List Row)
  sampleRows : Option (List Row)
  primaryIsSample : Bool
  fetchOutcome : Except String (List Row)
deriving Repr

/-- One iteration of the candidate-path loop inside `load_relievers`: a
missing file or a file that parses to zero records is a `DataLoadError`
(carrying the loop's message), otherwise the parsed records are returned. -/
def loadFromPath (rows? : Option (List Row)) : Except String (List Reliever) :=
  match rows? with
  | none => .error "Reliever data not found"
  | some rows =>
    let relievers := rows.map Reliever.from_row
    if relievers.isEmpty then .error "No relievers were loaded" else .ok relievers

/-- The body of `load_relievers` from `bullpen/data.py` without the
`lru_cache` wrapper: try the primary path, then (when distinct) the bundled
sample path, returning the first nonempty parse and otherwise raising the
last `DataLoadError` (modelled as `Except.error`). -/
def load_relievers_uncached (env : DataEnv) : Except String (List Reliever) :=
  match loadFromPath env.primaryRows with
  | .ok rels => .ok rels
  | .error e1 =>
    if env.primaryIsSample then .error e1
    else
      match loadFromPath env.sampleRows with
      | .ok rels => .ok rels
      | .error e2 => .error e2

/-- The `lru_cache(maxsize=1)`-wrapped `load_relievers`: a hit returns the
memoized pool untouched; a miss runs the uncached body and memoizes a
successful result (`lru_cache` does not cache raised exceptions).  The second
component is the cache slot after the call. -/
def load_relievers (cache : Option (List Reliever)) (env : DataEnv) :
    Except String (List Reliever) × Option (List Reliever) :=
  match cache with
  | some rels => (.ok rels, some rels)
  | none =>
    match load_relievers_uncached env with
    | .ok rels => (.ok rels, some rels)
    | .error e => (.error e, none)

/-- The refresh collaborator `refresh_relievers_csv` from `bullpen/data.py`:
fetch the Statcast frame (propagating `StatcastError` when the upstream
fails, in which case nothing is written and the memo is left alone),
otherwise overwrite the primary CSV with the frame, clear the
`load_relievers` memo (`load_relievers.cache_clear()`, the returned `none`
cache slot), and return the frame's row count. -/
def refresh_relievers_csv (env : DataEnv) :
    Except String (Nat × DataEnv × Option (List Reliever)) :=
  match env.fetchOutcome with
  | .error e => .error e
  | .ok frame => .ok (frame.length, { env with primaryRows := some frame }, none)

/-- Errors that can escape the orchestrator's Load stage. -/
inductive NodeError
  | dataLoad (msg : String)
  | statcast (msg : String)
deriving DecidableEq, Repr

/-- Result of running the Load stage: the outcome (on success the loaded pool
with the notes accumulated so far, on failure the error together with the
notes list at the moment of raising — in the Python the list is a local copy
that is discarded when the exception propagates, and it is kept here to make
the note-recording behaviour observable), plus how often the load and refresh
collaborators were invoked. -/
structure LoadNodeResult where
  outcome : Except (NodeError × List String) (List Reliever × List String)
  loadCalls : Nat
  refreshCalls : Nat
deriving Repr

/-- The `_load_relievers_node` stage of `bullpen/agents.py`: load; on
`DataLoadError` refresh (which on success clears the memo) and retry the load
exactly once; a `StatcastError` from the refresh appends a note and
propagates. -/
def load_relievers_node (notes0 : List String) (cache : Option (List Reliever))
    (env : DataEnv) : LoadNodeResult :=
  match (load_relievers cache env).1 with
  | .ok rels => ⟨.ok (rels, notes0), 1, 0⟩
  | .error _ =>
    match refresh_relievers_csv env with
    | .error exc =>
      ⟨.error (.statcast exc, notes0 ++ ["Statcast refresh failed: " ++ exc]), 1, 1⟩
    | .ok (rows_written, env2, cache2) =>
      let notes1 := notes0
        ++ ["Auto-refreshed reliever CSV with " ++ toString rows_written ++ " Statcast rows."]
      match (load_relievers cache2 env2).1 with
      | .ok rels => ⟨.ok (rels, notes1), 2, 1⟩
      | .error e2 => ⟨.error (.dataLoad e2, notes1), 2, 1⟩

/-- Note emitted by the critic when the ranking produced nothing. -/
def noScoredNote : String := "No relievers scored; nothing to critique."

/-- Note emitted by the critic when the explanation omits the top name. -/
def omittedNote : String :=
  "Critic: explanation omitted the top candidate's name; consider regenerating."

/-- Note emitted by the critic when the explanation mentions the top name. -/
def referencesNote : String := "Critic: explanation references the top candidate by name."

/-- Note emitted by the critic when no explanation was generated. -/
def deterministicNote : String := "Critic: no explanation generated; deterministic ranking only."

/-- Python truthiness of the optional explanation string: `None` and the
empty string are falsy, everything else is truthy. -/
def truthyStr : Option String → Bool
  | none => false
  | some s => !(s == "")

/-- The `_critic_node` stage of `bullpen/agents.py`: with nothing scored,
note and return; otherwise check (case-insensitively) whether the truthy
explanation mentions the top-ranked candidate's name and append the matching
note; a falsy explanation yields the deterministic-ranking note. -/
def _critic_node (notes0 : List String) (scored : List (Reliever × ℚ))
    (explanation : Option String) : List String :=
  match scored with
  | [] => notes0 ++ [noScoredNote]
  | (top, _) :: _ =>
    let top_name := top.name
    if truthyStr explanation then
      let e := explanation.getD ""
      if !(strContains (strLower e) (strLower top_name)) then notes0 ++ [omittedNote]
      else notes0 ++ [referencesNote]
    else notes0 ++ [deterministicNote]

/-- Behaviour of one call to the external chat-completions endpoint: either a
response whose message content is `content` (`none` when the API returns an
empty message), or a raised exception. -/
inductive LLMOutcome
  | success (content : Option String)
  | failure (err : String)
deriving DecidableEq, Repr

/-- The explanation collaborator `generate_explanation` from
`bullpen/llm.py`: with no API key configured it returns `None`; otherwise it
performs the external call with no surrounding try/except, so an exception

from the endpoint propagates to the caller (`Except.error`); a returned
message is stripped, with falsy content collapsing to `None`. -/
def generate_explanation (apiKey : Option String) (endpoint : LLMOutcome) :
    Except String (Option String) :=
  match apiKey with
  | none => .ok none
  | some _ =>
    match endpoint with
    | .failure err => .error err
    | .success none => .ok none
    | .success (some message) =>
      .ok (if message == "" then none else some (strTrim message))

/-- Candidates surviving the exclusion filter of `rank_relievers`, paired
with their scores (the list the Python code sorts). -/
def scoredCandidates (pool : List Reliever) (batter : BatterSide)
    (leverage : LeverageLevel) (exclude : List String) : List (Reliever × ℚ) :=
  (pool.filter (fun r => !(matchesExclusion exclude r))).map
    (fun r => (r, score_reliever r batter leverage))

/-- The fully sorted scored list of `rank_relievers`, before `[:3]`. -/
def sortedScored (pool : List Reliever) (batter : BatterSide)
    (leverage : LeverageLevel) (exclude : List String) : List (Reliever × ℚ) :=
  (scoredCandidates pool batter leverage exclude).insertionSort byScoreDesc

/-- Whether one data-source path is absent or yields zero records — the
condition under which `load_relievers` moves past it. -/
def yieldsNoRecords (rows? : Option (List Row)) : Bool :=
  match rows? with
  | none => true
  | some rows => rows.isEmpty

/-- Whether a load outcome is a raised `DataLoadError`. -/
def raisesDataLoad (r : Except String (List Reliever)) : Bool :=
  match r with
  | .error _ => true
  | .ok _ => false

/-- A well-formed reliever used as concrete test data. -/
def ace : Reliever :=
  ⟨"ace", "R", 3, 1.2, 9, 3, 0.3, 0.32, 1, 0, 0, 0, 0, 0, 0, 0, 0⟩

/-- A reliever whose stored name carries leading whitespace, as `from_row`
can produce (names are never stripped). -/
def aceWS : Reliever :=
  ⟨" Ace", "R", 3, 1.2, 9, 3, 0.3, 0.32, 1, 0, 0, 0, 0, 0, 0, 0, 0⟩

/-- A well-formed CSV row. -/
def goodRow : Row :=
  ⟨"Ace Reliever", "r", 2.5, 1.0, 10, 2.5, 0.28, 0.3, 2,
    some 10, some 3, some 1, some 15, some 4, some 5, some 20, some 40⟩

/-- A syntactically parseable row that violates the record invariant: its
handedness column is `s` and its ERA column parsed to a negative number. -/
def badRow : Row :=
  ⟨"Mystery", "s", -1, 1.0, 9, 3, 0.3, 0.3, 1,
    none, none, none, none, none, none, none, none⟩

/-- Environment with no reliever CSV anywhere and an unreachable upstream. -/
def noDataFetchFailEnv : DataEnv := ⟨none, none, false, .error "upstream unreachable"⟩

/-- Environment with no reliever CSV anywhere but a healthy upstream. -/
def noDataFetchOkEnv : DataEnv := ⟨none, none, false, .ok [goodRow]⟩

/-- Environment where the primary CSV is missing but the bundled sample data
exists and parses to one record. -/
def sampleOnlyEnv : DataEnv := ⟨none, some [goodRow], false, .error "unused"⟩

/-- Environment where the primary CSV exists and parses to one record. -/
def primaryEnv : DataEnv := ⟨some [goodRow], none, false, .error "unused"⟩


/-- Helper: stable insertion keeps the score-level sublists intact. -/
lemma filter_score_orderedInsert (s : ℚ) (a : Reliever × ℚ) (l : List (Reliever × ℚ)) :
    (l.orderedInsert byScoreDesc a).filter (fun p => decide (p.2 = s))
      = if a.2 = s then a :: l.filter (fun p => decide (p.2 = s))
        else l.filter (fun p => decide (p.2 = s)) := by
  induction l with
  | nil =>
    simp only [List.orderedInsert, List.filter]
    by_cases has : a.2 = s <;> simp [has]
  | cons b l ih =>
    by_cases hab : byScoreDesc a b
    · rw [List.orderedInsert_of_le _ _ hab]
      by_cases has : a.2 = s <;> simp [has, List.filter]
    · simp only [List.orderedInsert, if_neg hab]
      have hb : a.2 < b.2 := lt_of_not_le hab
      by_cases has : a.2 = s
      · have hbs : ¬ (b.2 = s) := by
          intro h
          rw [h, ← has] at hb
          exact lt_irrefl _ hb
        simp [List.filter, hbs, has, ih]
      · by_cases hbs : b.2 = s <;> simp [List.filter, hbs, has, ih]

/-- Helper: the stable sort of `rank_relievers` preserves, score by score,
the original relative order of equal-score pairs. -/
lemma filter_score_insertionSort (s : ℚ) (l : List (Reliever × ℚ)) :
    (l.insertionSort byScoreDesc).filter (fun p => decide (p.2 = s))
      = l.filter (fun p => decide (p.2 = s)) := by
  induction l with
  | nil => rfl
  | cons a l ih =>
    simp only [List.insertionSort, filter_score_orderedInsert, ih]
    by_cases has : a.2 = s <;> simp [List.filter, has]

/-- C1: for every candidate, batter side and leverage tier the scorer is
total (the Lean embedding is a total function, mirroring that the clamps
absorb all inputs and no exception is raised) and returns exactly the
4-decimal-rounded weighted sum of the five specified terms with the specified
leverage-adjusted, non-renormalized weights. -/
theorem score_reliever_matches_spec (r : Reliever) (b : BatterSide) (lv : LeverageLevel) :
    score_reliever r b lv = score_spec r b lv := by
  cases lv <;> cases b <;>
    simp only [score_reliever, score_spec, spec_weights, adjustWeights, baseWeights,
      clamp01, _platoon_advantage] <;>
    rw [max_comm (0.01 : ℚ) r.era, max_comm (0.01 : ℚ) r.whip]

/-- C5: the ranker sorts the scored survivors in descending score order with
a stable sort and no secondary key — the sorted list is a permutation of the
scored pool, pairwise descending, and for every score value the equal-score
pairs appear in their original pool order — and returns the first three of
that order both as a plain candidate list and as (candidate, score) pairs. -/
theorem rank_relievers_stable_top3 (pool : List Reliever) (b : BatterSide)
    (lv : LeverageLevel) (exclude : List String) :
    (rank_relievers pool b lv exclude).2 = (sortedScored pool b lv exclude).take 3 ∧
    (rank_relievers pool b lv exclude).1 = ((rank_relievers pool b lv exclude).2).map Prod.fst ∧
    (sortedScored pool b lv exclude).Perm (scoredCandidates pool b lv exclude) ∧
    (sortedScored pool b lv exclude).Sorted byScoreDesc ∧
    ∀ s : ℚ, (sortedScored pool b lv exclude).filter (fun p => decide (p.2 = s))
        = (scoredCandidates pool b lv exclude).filter (fun p => decide (p.2 = s)) :=
  ⟨rfl, rfl, List.perm_insertionSort _ _, List.sorted_insertionSort _ _,
    fun s => filter_score_insertionSort s _⟩


/-- C4 counterexample: the candidate whose stored name is `" Ace"` matches
the exclusion entry `"ace"` under the claim's case-insensitive,
whitespace-trimmed comparison, yet `rank_relievers` keeps it — candidate
names are lowercased but never trimmed. -/
theorem rank_exclusion_trim_cex :
    strLower (strTrim aceWS.name) = strLower (strTrim "ace") ∧
    (rank_relievers [aceWS] .L .medium ["ace"]).1 = [aceWS] :=
  ⟨by decide, rfl⟩

/-- C4 amended: `rank_relievers` removes exactly those candidates whose
lowercased (untrimmed) name equals some exclusion entry trimmed and
lowercased, and no others; an exclusion entry matching no candidate under
that comparison is a no-op. -/
theorem rank_relievers_exclusion_exact (pool : List Reliever) (b : BatterSide)
    (lv : LeverageLevel) (exclude : List String) :
    rank_relievers pool b lv exclude
      = rank_relievers (pool.filter (fun r => !(matchesExclusion exclude r))) b lv [] ∧
    ∀ name, (∀ r ∈ pool, strLower r.name ≠ strLower (strTrim name)) →
      rank_relievers pool b lv (name :: exclude) = rank_relievers pool b lv exclude := by
  constructor
  · simp [rank_relievers, matchesExclusion, List.filter_filter]
  · intro name h
    have hfilter :
        pool.filter (fun r => !(matchesExclusion (name :: exclude) r))
          = pool.filter (fun r => !(matchesExclusion exclude r)) := by
      apply List.filter_congr
      intro r hr
      simp [matchesExclusion, h r hr]
    simpa [rank_relievers, matchesExclusion] using congrArg (fun c =>
      (let scored := c.map (fun r => (r, score_reliever r b lv))
       let top_pairs := (scored.insertionSort byScoreDesc).take 3
       (top_pairs.map Prod.fst, top_pairs))) hfilter

/-- C6: ranking an empty pool, or a pool in which every candidate is
excluded, yields the pair of empty lists rather than an error. -/
theorem rank_relievers_empty_result (b : BatterSide) (lv : LeverageLevel)
    (exclude : List String) :
    rank_relievers [] b lv exclude = ([], []) ∧
    ∀ pool : List Reliever, (∀ r ∈ pool, matchesExclusion exclude r = true) →
      rank_relievers pool b lv exclude = ([], []) := by
  constructor
  · rfl
  · intro pool h
    have hnil : pool.filter (fun r => !(matchesExclusion exclude r)) = [] := by
      rw [List.filter_eq_nil_iff]
      intro r hr
      simp [h r hr]
    simp only [rank_relievers, matchesExclusion] at hnil ⊢
    rw [hnil]
    rfl


/-- C4 witness: excluding a name that matches no candidate is a no-op. -/
theorem rank_relievers_exclusion_exact_witness :
    rank_relievers [ace] .L .medium ["zeta"] = rank_relievers [ace] .L .medium [] :=
  (rank_relievers_exclusion_exact [ace] .L .medium []).2 "zeta" (by decide)

/-- C6 witness: a pool whose only candidate is excluded ranks to `([], [])`. -/
theorem rank_relievers_empty_result_witness :
    rank_relievers [ace] .L .medium ["ace"] = ([], []) :=
  (rank_relievers_empty_result .L .medium ["ace"]).2 [ace] (by decide)

/-- C7: with a ranked top candidate present the critic never raises and
appends exactly one note — the deterministic-ranking note when no explanation
was generated, the references note when the (generated, nonempty) explanation
contains the top name case-insensitively, and the omitted note otherwise. -/
theorem critic_note_selection (notes : List String) (top : Reliever) (s : ℚ)
    (rest : List (Reliever × ℚ)) (explanation : Option String) :
    (explanation = none →
      _critic_node notes ((top, s) :: rest) explanation = notes ++ [deterministicNote]) ∧
    (∀ e, explanation = some e → e ≠ "" →
      strContains (strLower e) (strLower top.name) = true →
      _critic_node notes ((top, s) :: rest) explanation = notes ++ [referencesNote]) ∧
    (∀ e, explanation = some e → e ≠ "" →
      strContains (strLower e) (strLower top.name) = false →
      _critic_node notes ((top, s) :: rest) explanation = notes ++ [omittedNote]) := by
  refine ⟨fun hn => ?_, fun e he hne hc => ?_, fun e he hne hc => ?_⟩
  · subst hn
    rfl
  · subst he
    simp [_critic_node, truthyStr, hne, hc]
  · subst he
    simp [_critic_node, truthyStr, hne, hc]

/-- C7 witness: the three note selections at concrete inputs. -/
theorem critic_note_selection_witness :
    _critic_node [] [(ace, 0)] none = [deterministicNote] ∧
    _critic_node [] [(ace, 0)] (some "Go ACE, go") = [referencesNote] ∧
    _critic_node [] [(ace, 0)] (some "somebody else") = [omittedNote] :=
  ⟨(critic_note_selection [] ace 0 [] none).1 rfl,
   (critic_note_selection [] ace 0 [] (some "Go ACE, go")).2.1 "Go ACE, go" rfl
     (by decide) (by decide),
   (critic_note_selection [] ace 0 [] (some "somebody else")).2.2 "somebody else" rfl
     (by decide) (by decide)⟩

/-- C10: a present-but-empty explanation string is falsy in the critic's
`if explanation:` test, so the critic emits the deterministic-ranking note,
exactly as it does for an absent explanation. -/
theorem critic_empty_explanation_deterministic (notes : List String) (top : Reliever)
    (s : ℚ) (rest : List (Reliever × ℚ)) :
    _critic_node notes ((top, s) :: rest) (some "") = notes ++ [deterministicNote] ∧
    _critic_node notes ((top, s) :: rest) (some "")
      = _critic_node notes ((top, s) :: rest) none :=
  ⟨rfl, rfl⟩

/-- C8: `generate_explanation` returns absent when no credential is
configured, but with a credential configured an exception raised by the
external chat-completions call propagates out of the collaborator (there is
no try/except in `generate_explanation`, unlike its sibling functions), so an
internal failure does not surface as an absent result. -/
theorem generate_explanation_failure_propagates :
    generate_explanation none (.failure "APIConnectionError") = .ok none ∧
    generate_explanation (some "sk-test") (.failure "APIConnectionError")
      = .error "APIConnectionError" :=
  ⟨rfl, rfl⟩

/-- C9 counterexample: parsing a row whose handedness column is `s` and
whose ERA column is negative produces a record violating the invariant —
`from_row` normalizes but never validates. -/
theorem from_row_invariant_cex : ¬ recordInvariant (Reliever.from_row badRow) := by
  decide

/-- C9 amended: a parsed record satisfies the invariant exactly when the raw
row already does — trimmed, uppercased handedness equal to L or R and
non-negative rate statistics and days-rest; `from_row` itself performs
normalization only and no validation. -/
theorem from_row_invariant_iff (row : Row) :
    recordInvariant (Reliever.from_row row) ↔
      ((strUpper (strTrim row.throws) = "L" ∨ strUpper (strTrim row.throws) = "R")
        ∧ 0 ≤ row.era ∧ 0 ≤ row.whip ∧ 0 ≤ row.k9 ∧ 0 ≤ row.bb9
        ∧ 0 ≤ row.vsL_woba ∧ 0 ≤ row.vsR_woba ∧ 0 ≤ row.days_rest) :=
  Iff.rfl


/-- C3 counterexample: with the primary source missing but the bundled
sample data present, `load_relievers` does not raise — it returns the sample
records, contradicting "raises exactly when the primary source is missing or
empty, otherwise returns records from the primary source". -/
theorem load_relievers_sample_fallback_cex :
    sampleOnlyEnv.primaryRows = none ∧
    load_relievers_uncached sampleOnlyEnv = .ok [Reliever.from_row goodRow] :=
  ⟨rfl, rfl⟩

/-- C3 amended: `load_relievers` raises `DataLoadError` exactly when the
primary source and the bundled sample fallback (skipped when the primary path
already is the sample path) are each missing or yield zero records; a primary
source with records returns exactly those parsed records, and otherwise a
sample source with records returns the sample's parsed records. -/
theorem load_relievers_availability (env : DataEnv) :
    raisesDataLoad (load_relievers_uncached env)
        = (yieldsNoRecords env.primaryRows
            && (env.primaryIsSample || yieldsNoRecords env.sampleRows)) ∧
    (yieldsNoRecords env.primaryRows = false →
      load_relievers_uncached env = .ok ((env.primaryRows.getD []).map Reliever.from_row)) ∧
    (yieldsNoRecords env.primaryRows = true → env.primaryIsSample = false →
      yieldsNoRecords env.sampleRows = false →
      load_relievers_uncached env
        = .ok ((env.sampleRows.getD []).map Reliever.from_row)) := by
  obtain ⟨p, s, pis, f⟩ := env
  rcases p with _ | ⟨_ | ⟨pr, prs⟩⟩ <;> rcases s with _ | ⟨_ | ⟨sr, srs⟩⟩ <;> rcases pis with _ | _ <;>
    simp [load_relievers_uncached, loadFromPath, yieldsNoRecords, raisesDataLoad]

/-- C3 witness: a primary source with one record returns exactly that parsed
record; a missing primary with a nonempty sample returns the sample's. -/
theorem load_relievers_availability_witness :
    load_relievers_uncached primaryEnv = .ok [Reliever.from_row goodRow] ∧
    load_relievers_uncached sampleOnlyEnv = .ok [Reliever.from_row goodRow] :=
  ⟨(load_relievers_availability primaryEnv).2.1 rfl,
   (load_relievers_availability sampleOnlyEnv).2.2 rfl rfl rfl⟩


/-- C2: when the first load raises `DataLoadError`, the Load stage invokes
the refresh collaborator exactly once; on refresh success the memo is
invalidated (the retry runs with an empty cache slot against the rewritten
CSV) and the load is retried exactly once; if the refresh raises
`StatcastError`, the stage records the failure note and propagates the error
with no second load attempt. -/
theorem load_node_one_shot_recovery (notes0 : List String)
    (cache : Option (List Reliever)) (env : DataEnv) (e : String)
    (hfail : (load_relievers cache env).1 = .error e) :
    (load_relievers_node notes0 cache env).refreshCalls = 1 ∧
    (∀ frame, env.fetchOutcome = .ok frame →
      (load_relievers_node notes0 cache env).loadCalls = 2 ∧
      (load_relievers_node notes0 cache env).outcome =
        (match (load_relievers none { env with primaryRows := some frame }).1 with
         | .ok rels => .ok (rels, notes0
             ++ ["Auto-refreshed reliever CSV with " ++ toString frame.length
                  ++ " Statcast rows."])
         | .error e2 => .error (.dataLoad e2, notes0
             ++ ["Auto-refreshed reliever CSV with " ++ toString frame.length
                  ++ " Statcast rows."]))) ∧
    (∀ msg, env.fetchOutcome = .error msg →
      (load_relievers_node notes0 cache env).loadCalls = 1 ∧
      (load_relievers_node notes0 cache env).outcome =
        .error (.statcast msg, notes0 ++ ["Statcast refresh failed: " ++ msg])) := by
  obtain ⟨p, s, pis, f⟩ := env
  refine ⟨?_, fun frame hok => ?_, fun msg herr => ?_⟩
  · simp only [load_relievers_node, hfail, refresh_relievers_csv]
    cases f with
    | error msg => rfl
    | ok frame =>
      cases hx : (load_relievers none ⟨some frame, s, pis, Except.ok frame⟩).1 <;>
        simp [hx]
  · have hf : f = .ok frame := hok
    subst hf
    cases hx : (load_relievers none ⟨some frame, s, pis, Except.ok frame⟩).1 <;>
      simp [load_relievers_node, refresh_relievers_csv, hfail, hx]
  · have hf : f = .error msg := herr
    subst hf
    simp [load_relievers_node, refresh_relievers_csv, hfail]


/-- C2 witness: with no CSV anywhere, a failing upstream propagates as a
`StatcastError` with the note recorded and a single load attempt, while a
healthy upstream leads to exactly one refresh and one retried load. -/
theorem load_node_one_shot_recovery_witness :
    ((load_relievers_node [] none noDataFetchFailEnv).loadCalls = 1 ∧
      (load_relievers_node [] none noDataFetchFailEnv).outcome =
        .error (.statcast "upstream unreachable",
          ["Statcast refresh failed: upstream unreachable"])) ∧
    (load_relievers_node [] none noDataFetchOkEnv).refreshCalls = 1 ∧
    (load_relievers_node [] none noDataFetchOkEnv).loadCalls = 2 :=
  ⟨(load_node_one_shot_recovery [] none noDataFetchFailEnv "Reliever data not found"
      rfl).2.2 "upstream unreachable" rfl,
   (load_node_one_shot_recovery [] none noDataFetchOkEnv "Reliever data not found"
      rfl).1,
   ((load_node_one_shot_recovery [] none noDataFetchOkEnv "Reliever data not found"
      rfl).2.1 [goodRow] rfl).1⟩

end Bullpen
